import Mathlib

/-!
Shallow embedding of the resilient filesystem-operations layer of Vortex
(`src/error_handling_utils.ts`): call-site trace capture (`restackErr`),
the error classifier and recovery prompts (`errorRepeat`, `busyRetry`,
`unlockConfirm`, `errorHandler`), the generic retrying wrapper
(`genWrapperAsync`), the idempotent delete wrappers (`removeAsync`,
`unlinkAsync`, `rmdirAsync`), directory creation (`mkdirAsync`,
`ensureDirAsync`), and the self-copy guard (`selfCopyCheck`, `copyAsync`).

Promises are modelled as `Except` values; a primitive filesystem operation
is modelled as a function from the invocation index (how many times the
wrapper has already called it) to the outcome of that invocation, so that
retry loops can be expressed.  The unbounded user-gated retry loops take a
fuel parameter; `RunResult.outOfFuel` marks runs that would retry further.
Runs record how many times the primitive was invoked and how many
elevation sessions were started, since several spec properties count them.
-/

namespace Vortex

/-- A JavaScript `Error` as used by the layer: an optional OS error code
(`"ENOENT"`, `"EBUSY"`, `"EPERM"`, ...), a message, a mutable stack
string, the failing path, an optional `dest` field, and a flag marking
instances of the `UserCanceled` class. -/
structure JsError where
  code : Option String := none
  message : String := ""
  stack : String := ""
  path : Option String := none
  dest : Option String := none
  userCanceled : Bool := false
deriving Repr, DecidableEq

/-- Modelled from the spec: the `UserCanceled` error class (imported from
`CustomErrors`, whose source is not included) is described as "a
distinguished 'user canceled' failure, not a generic error"; it is
modelled as an error value carrying a distinguishing flag and no OS
code. -/
def UserCanceled : JsError := { userCanceled := true }

/-- `restackErr` from the source: replace the error's stack by its message
followed by the captured call-site stack.  The error object (and thus its
`code`) is otherwise unchanged. -/
def restackErr (error stackErr : JsError) : JsError :=
  { error with stack := error.message ++ "\n" ++ stackErr.stack }

deriving instance DecidableEq for Except

/-- The ambient interaction environment: whether a dialog facility exists
(`dialog !== undefined`), which button the user presses on the busy
prompt (0 = Cancel, 1 = Retry) and on the access-denied prompt
(0 = Cancel, 1 = Retry, 2 = Give permission), and the outcome of an
elevation session (`elevated`), whose internals (ipc channel, helper
process) are not modelled beyond their reported result. -/
structure Env where
  hasDialog : Bool
  busyChoice : Nat
  permChoice : Nat
  elevResult : Except JsError Unit
deriving Repr, DecidableEq

/-- `unlockConfirm` from the source: headless resolves `false`; button 0
rejects with `UserCanceled`; otherwise resolves whether button 2
("Give permission") was chosen. -/
def unlockConfirm (env : Env) (_filePath : Option String) : Except JsError Bool :=
  if env.hasDialog = false then .ok false
  else if env.permChoice = 0 then .error UserCanceled
  else .ok (decide (env.permChoice = 2))

/-- `busyRetry` from the source: headless resolves `false`; button 0
rejects with `UserCanceled`; otherwise resolves `true`. -/
def busyRetry (env : Env) (_filePath : Option String) : Except JsError Bool :=
  if env.hasDialog = false then .ok false
  else if env.busyChoice = 0 then .error UserCanceled
  else .ok true

/-- `errorRepeat` from the source: decide whether the failed primitive
should be re-invoked. `EBUSY` asks the busy prompt; `EPERM` asks the
access-denied prompt and, if the user elects to unlock, runs an elevation
session and then repeats; every other code resolves `false`.  The second
component counts elevation sessions started (on an elevation failure the
error propagates). -/
def errorRepeat (env : Env) (code : Option String) (filePath : Option String) :
    Except JsError (Bool × Nat) :=
  if code = some "EBUSY" then
    match busyRetry env filePath with
    | .ok b => .ok (b, 0)
    | .error e => .error e
  else if code = some "EPERM" then
    match unlockConfirm env filePath with
    | .error e => .error e
    | .ok doUnlock =>
      if doUnlock then
        match env.elevResult with
        | .ok _ => .ok (true, 1)
        | .error e => .error e
      else .ok (true, 0)
  else .ok (false, 0)

/-- `errorHandler` from the source: consult `errorRepeat` on the error's
code (passing `error.dest || error.path`); on "repeat" resolve (returning
the number of elevation sessions used), otherwise reject with the
restacked error; a rejection coming out of `errorRepeat` (user cancel,
elevation failure) is itself restacked by the trailing catch.  The
"don't repeat" rejection also flows through that catch, restacking
twice. -/
def errorHandler (env : Env) (error stackErr : JsError) : Except JsError Nat :=
  match errorRepeat env error.code (match error.dest with | some d => some d | none => error.path) with
  | .ok (true, n) => .ok n
  | .ok (false, _) => .error (restackErr (restackErr error stackErr) stackErr)
  | .error e => .error (restackErr e stackErr)

/-- Outcome of running a wrapped operation: success or failure, recording
how many times the underlying primitive was invoked and how many
elevation sessions were started; `outOfFuel` marks a run that would keep
retrying beyond the supplied fuel. -/
inductive RunResult where
  | ok (invocations elevations : Nat)
  | err (e : JsError) (invocations elevations : Nat)
  | outOfFuel
deriving Repr, DecidableEq

/-- The recursive wrapper produced by `genWrapperAsync`: invoke the
primitive; on failure run `errorHandler` and, if it resolves, re-invoke
the primitive with the same arguments. `k` is the invocation index,
`elevs` the elevation sessions started so far. -/
def wrapperLoop (env : Env) (prim : Nat → Except JsError Unit) (stackErr : JsError)
    (fuel k elevs : Nat) : RunResult :=
    match prim k with
    | .ok _ => .ok (k + 1) elevs
    | .error err =>
      match errorHandler env err stackErr with
      | .error e => .err e (k + 1) elevs
      | .ok n =>
        match fuel with
        | 0 => .outOfFuel
        | f + 1 => wrapperLoop env prim stackErr f (k + 1) (elevs + n)

/-- `genWrapperAsync` from the source: capture a call-site trace at
invocation time (`stackErr`) and run the retry loop from invocation 0. -/
def genWrapperAsync (env : Env) (prim : Nat → Except JsError Unit) (stackErr : JsError)
    (fuel : Nat) : RunResult :=
  wrapperLoop env prim stackErr fuel 0 0

/-- `mkdirAsync` from the source is the generic wrapper applied to the
raw `fs.mkdirAsync` primitive; it has no special tolerance of its own. -/
def mkdirAsync (env : Env) (prim : Nat → Except JsError Unit) (stackErr : JsError)
    (fuel : Nat) : RunResult :=
  genWrapperAsync env prim stackErr fuel

/-- `ensureDirAsync` from the source: call the `ensureDir` primitive once;
an `EEXIST` failure is treated as success, any other failure is rejected
restacked with the captured trace. -/
def ensureDirAsync (prim : Except JsError Unit) (stackErr : JsError) : Except JsError Unit :=
  match prim with
  | .ok _ => .ok ()
  | .error err =>
    if err.code = some "EEXIST" then .ok ()
    else .error (restackErr err stackErr)

/-- `unlinkInt` from the source: invoke the unlink primitive; an `ENOENT`
failure resolves (the file was already gone); any other failure goes
through `errorHandler` and, if that resolves, the primitive is
re-invoked. -/
def unlinkInt (env : Env) (prim : Nat → Except JsError Unit) (stackErr : JsError)
    (fuel k elevs : Nat) : RunResult :=
    match prim k with
    | .ok _ => .ok (k + 1) elevs
    | .error err =>
      if err.code = some "ENOENT" then .ok (k + 1) elevs
      else
        match errorHandler env err stackErr with
        | .error e => .err e (k + 1) elevs
        | .ok n =>
          match fuel with
          | 0 => .outOfFuel
          | f + 1 => unlinkInt env prim stackErr f (k + 1) (elevs + n)

/-- `unlinkAsync` from the source: capture the trace and run `unlinkInt`. -/
def unlinkAsync (env : Env) (prim : Nat → Except JsError Unit) (stackErr : JsError)
    (fuel : Nat) : RunResult :=
  unlinkInt env prim stackErr fuel 0 0

/-- `removeInt` from the source: same shape as `unlinkInt`, with the
`rimraf` primitive in place of `fs.unlinkAsync`. -/
def removeInt (env : Env) (prim : Nat → Except JsError Unit) (stackErr : JsError)
    (fuel k elevs : Nat) : RunResult :=
    match prim k with
    | .ok _ => .ok (k + 1) elevs
    | .error err =>
      if err.code = some "ENOENT" then .ok (k + 1) elevs
      else
        match errorHandler env err stackErr with
        | .error e => .err e (k + 1) elevs
        | .ok n =>
          match fuel with
          | 0 => .outOfFuel
          | f + 1 => removeInt env prim stackErr f (k + 1) (elevs + n)

/-- `removeAsync` from the source: capture the trace and run `removeInt`. -/
def removeAsync (env : Env) (prim : Nat → Except JsError Unit) (stackErr : JsError)
    (fuel : Nat) : RunResult :=
  removeInt env prim stackErr fuel 0 0

def NUM_RETRIES : Nat := 3

def RETRY_DELAY_MS : Nat := 100

def RETRY_ERRORS : List String := ["EPERM", "EBUSY", "EUNKNOWN"]

/-- `RETRY_ERRORS.has(err.code)` from the source: whether the code is in
the retryable set (an absent code is in no set). -/
def isRetryCode (code : Option String) : Bool :=
  match code with
  | some c => RETRY_ERRORS.contains c
  | none => false

/-- A run of the bounded rmdir loop: its outcome, how many times the
primitive was invoked, and the list of delays (in ms) slept between
consecutive invocations (`delayed` is modelled by recording its
duration). -/
structure RmdirRun where
  result : Except JsError Unit
  invocations : Nat
  delays : List Nat
deriving Repr, DecidableEq

/-- `rmdirInt` from the source: invoke the rmdir primitive; `ENOENT`
resolves; a code in `RETRY_ERRORS` with tries remaining sleeps
`RETRY_DELAY_MS` and retries with one try fewer; anything else throws the
restacked error.  No prompt is involved. -/
def rmdirInt (prim : Nat → Except JsError Unit) (stackErr : JsError)
    (tries k : Nat) : RmdirRun :=
    match prim k with
    | .ok _ => ⟨.ok (), 1, []⟩
    | .error err =>
      if err.code = some "ENOENT" then ⟨.ok (), 1, []⟩
      else if isRetryCode err.code then
        match tries with
        | 0 => ⟨.error (restackErr err stackErr), 1, []⟩
        | t + 1 =>
          let rest := rmdirInt prim stackErr t (k + 1)
          ⟨rest.result, rest.invocations + 1, RETRY_DELAY_MS :: rest.delays⟩
      else ⟨.error (restackErr err stackErr), 1, []⟩

/-- `rmdirAsync` from the source: capture the trace and run `rmdirInt`
with `NUM_RETRIES` tries. -/
def rmdirAsync (prim : Nat → Except JsError Unit) (stackErr : JsError) : RmdirRun :=
  rmdirInt prim stackErr NUM_RETRIES 0

/-- `fs.Stats` restricted to the fields the self-copy guard could use:
the containing device and the file serial number (inode). -/
structure Stats where
  dev : Nat
  ino : Nat
deriving Repr, DecidableEq

/-- The error thrown by the self-copy guard when source and destination
resolve to the same file. -/
def selfCopyError (src dest : String) (ino : Nat) : JsError :=
  { message := "Source \"" ++ src ++ "\" and destination \"" ++ dest
      ++ "\" are the same file (id \"" ++ toString ino ++ "\")." }

/-- `selfCopyCheck` from the source: stat both paths (an `ENOENT` on the
destination is replaced by an empty object, whose `ino` is undefined and
therefore never equal to the source's); reject with the self-copy error
exactly when the two `ino` values compare equal.  A failure of the source
stat (or a non-`ENOENT` failure of the destination stat) rejects with
that error. -/
def selfCopyCheck (src dest : String) (statSrc statDest : Except JsError Stats) :
    Except JsError Unit :=
  let destRes : Except JsError (Option Stats) :=
    match statDest with
    | .ok s => .ok (some s)
    | .error e => if e.code = some "ENOENT" then .ok none else .error e
  match statSrc, destRes with
  | .error e, _ => .error e
  | .ok _, .error e => .error e
  | .ok s, .ok d =>
    match d with
    | some dstat =>
      if s.ino = dstat.ino then .error (selfCopyError src dest s.ino)
      else .ok ()
    | none => .ok ()

/-- Modelled from the spec (for comparison only): the identity the
Self-Copy Guard section describes, "a filesystem-level unique identity
(device + file serial number)"; two stats denote the same file when both
components agree. -/
def specSameIdentity (s d : Stats) : Bool :=
  s.dev == d.dev && s.ino == d.ino

/-- Options accepted by `copyAsync` beyond the raw copy options: the
per-call opt-out of the self-copy check. -/
structure CopyOptions where
  noSelfCopy : Bool := false
deriving Repr, DecidableEq

/-- `copyInt` from the source: invoke the copy primitive; on failure run
`errorHandler` and, if it resolves, re-invoke the copy with the same
arguments. -/
def copyInt (env : Env) (prim : Nat → Except JsError Unit) (stackErr : JsError)
    (fuel k elevs : Nat) : RunResult :=
    match prim k with
    | .ok _ => .ok (k + 1) elevs
    | .error err =>
      match errorHandler env err stackErr with
      | .error e => .err e (k + 1) elevs
      | .ok n =>
        match fuel with
        | 0 => .outOfFuel
        | f + 1 => copyInt env prim stackErr f (k + 1) (elevs + n)

/-- `copyAsync` from the source: capture the trace; unless options are
present with `noSelfCopy` set, run the self-copy check first; on check
success run `copyInt`; any rejection of the chain is restacked with the
captured trace. -/
def copyAsync (env : Env) (src dest : String)
    (statSrc statDest : Except JsError Stats)
    (prim : Nat → Except JsError Unit)
    (options : Option CopyOptions) (stackErr : JsError) (fuel : Nat) : RunResult :=
  let check : Except JsError Unit :=
    match options with
    | some o => if o.noSelfCopy then .ok () else selfCopyCheck src dest statSrc statDest
    | none => selfCopyCheck src dest statSrc statDest
  match check with
  | .error e => .err (restackErr e stackErr) 0 0
  | .ok _ =>
    match copyInt env prim stackErr fuel 0 0 with
    | .err e n m => .err (restackErr e stackErr) n m
    | r => r

/-! Concrete values used by witnesses and counterexamples. -/

/-- A call-site trace captured at wrapper invocation. -/
def se0 : JsError := { stack := "at caller" }

/-- A headless environment: no dialog facility. -/
def envHeadless : Env := ⟨false, 1, 1, .ok ()⟩

/-- A persistent BUSY error from the OS. -/
def busyE : JsError := { code := some "EBUSY", message := "resource busy", path := some "/p" }

/-- A NOT_FOUND error from the OS. -/
def enoentE : JsError := { code := some "ENOENT", message := "no such file", path := some "/p" }

/-- An ALREADY_EXISTS error from the OS. -/
def eexistE : JsError := { code := some "EEXIST", message := "file exists", path := some "/p" }

/-- A generic, non-tolerated error from the OS. -/
def einvalE : JsError := { code := some "EINVAL", message := "invalid", path := some "/p" }

/-- A PERMISSION_DENIED error from the OS. -/
def epermE : JsError := { code := some "EPERM", message := "not permitted", path := some "/p" }

/-- A primitive that is busy on its first invocation and succeeds afterwards. -/
def busyOncePrim : Nat → Except JsError Unit :=
  fun k => if k = 0 then .error busyE else .ok ()

/-- A primitive that is permission-denied on its first invocation and succeeds afterwards. -/
def epermOncePrim : Nat → Except JsError Unit :=
  fun k => if k = 0 then .error epermE else .ok ()

/-! Helper lemmas shared by several results. -/

/-- For a code other than `EBUSY` and `EPERM` the classifier resolves
"don't repeat" without any prompt or elevation. -/
theorem errorRepeat_other (env : Env) (code fp : Option String)
    (hbusy : code ≠ some "EBUSY") (hperm : code ≠ some "EPERM") :
    errorRepeat env code fp = .ok (false, 0) := by
  unfold errorRepeat
  rw [if_neg hbusy, if_neg hperm]

/-- For a code other than `EBUSY` and `EPERM` the handler rejects with the
error restacked onto the captured call-site trace. -/
theorem errorHandler_other (env : Env) (err stackErr : JsError)
    (hbusy : err.code ≠ some "EBUSY") (hperm : err.code ≠ some "EPERM") :
    errorHandler env err stackErr =
      .error (restackErr (restackErr err stackErr) stackErr) := by
  unfold errorHandler
  rw [errorRepeat_other env _ _ hbusy hperm]

/-- One step of the generic wrapper loop: the primitive succeeds. -/
theorem wrapperLoop_ok (env : Env) (prim : Nat → Except JsError Unit)
    (stackErr : JsError) (fuel k elevs : Nat) (hk : prim k = .ok ()) :
    wrapperLoop env prim stackErr fuel k elevs = .ok (k + 1) elevs := by
  rw [wrapperLoop.eq_def, hk]

/-- One step of the generic wrapper loop: the primitive fails and the
handler rejects. -/
theorem wrapperLoop_handler_error (env : Env) (prim : Nat → Except JsError Unit)
    (stackErr err e : JsError) (fuel k elevs : Nat)
    (hk : prim k = .error err)
    (hh : errorHandler env err stackErr = .error e) :
    wrapperLoop env prim stackErr fuel k elevs = .err e (k + 1) elevs := by
  rw [wrapperLoop.eq_def, hk]
  simp only [hh]

/-- One step of the generic wrapper loop: the primitive fails, the handler
resolves, and the loop re-invokes the primitive. -/
theorem wrapperLoop_handler_ok (env : Env) (prim : Nat → Except JsError Unit)
    (stackErr err : JsError) (fuel k elevs n : Nat)
    (hk : prim k = .error err)
    (hh : errorHandler env err stackErr = .ok n) :
    wrapperLoop env prim stackErr (fuel + 1) k elevs =
      wrapperLoop env prim stackErr fuel (k + 1) (elevs + n) := by
  rw [wrapperLoop.eq_def, hk]
  simp only [hh]

/-- One step of `unlinkInt`: the primitive succeeds. -/
theorem unlinkInt_ok (env : Env) (prim : Nat → Except JsError Unit)
    (stackErr : JsError) (fuel k elevs : Nat) (hk : prim k = .ok ()) :
    unlinkInt env prim stackErr fuel k elevs = .ok (k + 1) elevs := by
  rw [unlinkInt.eq_def, hk]

/-- One step of `unlinkInt`: the primitive fails with `ENOENT`. -/
theorem unlinkInt_enoent (env : Env) (prim : Nat → Except JsError Unit)
    (stackErr err : JsError) (fuel k elevs : Nat)
    (hk : prim k = .error err) (hc : err.code = some "ENOENT") :
    unlinkInt env prim stackErr fuel k elevs = .ok (k + 1) elevs := by
  rw [unlinkInt.eq_def, hk]
  simp [hc]

/-- One step of `unlinkInt`: the primitive fails with a non-`ENOENT` code
and the handler rejects. -/
theorem unlinkInt_handler_error (env : Env) (prim : Nat → Except JsError Unit)
    (stackErr err e : JsError) (fuel k elevs : Nat)
    (hk : prim k = .error err) (hc : err.code ≠ some "ENOENT")
    (hh : errorHandler env err stackErr = .error e) :
    unlinkInt env prim stackErr fuel k elevs = .err e (k + 1) elevs := by
  rw [unlinkInt.eq_def, hk]
  simp only [if_neg hc, hh]

/-- One step of `removeInt`: the primitive succeeds. -/
theorem removeInt_ok (env : Env) (prim : Nat → Except JsError Unit)
    (stackErr : JsError) (fuel k elevs : Nat) (hk : prim k = .ok ()) :
    removeInt env prim stackErr fuel k elevs = .ok (k + 1) elevs := by
  rw [removeInt.eq_def, hk]

/-- One step of `removeInt`: the primitive fails with `ENOENT`. -/
theorem removeInt_enoent (env : Env) (prim : Nat → Except JsError Unit)
    (stackErr err : JsError) (fuel k elevs : Nat)
    (hk : prim k = .error err) (hc : err.code = some "ENOENT") :
    removeInt env prim stackErr fuel k elevs = .ok (k + 1) elevs := by
  rw [removeInt.eq_def, hk]
  simp [hc]

/-- One step of `removeInt`: the primitive fails with a non-`ENOENT` code
and the handler rejects. -/
theorem removeInt_handler_error (env : Env) (prim : Nat → Except JsError Unit)
    (stackErr err e : JsError) (fuel k elevs : Nat)
    (hk : prim k = .error err) (hc : err.code ≠ some "ENOENT")
    (hh : errorHandler env err stackErr = .error e) :
    removeInt env prim stackErr fuel k elevs = .err e (k + 1) elevs := by
  rw [removeInt.eq_def, hk]
  simp only [if_neg hc, hh]

/-- One step of `rmdirInt`: the primitive succeeds. -/
theorem rmdirInt_ok (prim : Nat → Except JsError Unit) (stackErr : JsError)
    (tries k : Nat) (hk : prim k = .ok ()) :
    rmdirInt prim stackErr tries k = ⟨.ok (), 1, []⟩ := by
  rw [rmdirInt.eq_def, hk]

/-- One step of `rmdirInt`: the primitive fails with `ENOENT`. -/
theorem rmdirInt_enoent (prim : Nat → Except JsError Unit) (stackErr err : JsError)
    (tries k : Nat) (hk : prim k = .error err) (hc : err.code = some "ENOENT") :
    rmdirInt prim stackErr tries k = ⟨.ok (), 1, []⟩ := by
  rw [rmdirInt.eq_def, hk]
  simp [hc]

/-- One step of `rmdirInt`: a retryable failure with tries remaining sleeps
and retries. -/
theorem rmdirInt_retry (prim : Nat → Except JsError Unit) (stackErr err : JsError)
    (t k : Nat) (hk : prim k = .error err) (hc : err.code ≠ some "ENOENT")
    (hr : isRetryCode err.code = true) :
    rmdirInt prim stackErr (t + 1) k =
      ⟨(rmdirInt prim stackErr t (k + 1)).result,
        (rmdirInt prim stackErr t (k + 1)).invocations + 1,
        RETRY_DELAY_MS :: (rmdirInt prim stackErr t (k + 1)).delays⟩ := by
  rw [rmdirInt.eq_def, hk]
  simp [hc, hr]

/-- One step of `rmdirInt`: a retryable failure with no tries left throws
the restacked error. -/
theorem rmdirInt_exhausted (prim : Nat → Except JsError Unit) (stackErr err : JsError)
    (k : Nat) (hk : prim k = .error err) (hc : err.code ≠ some "ENOENT")
    (hr : isRetryCode err.code = true) :
    rmdirInt prim stackErr 0 k = ⟨.error (restackErr err stackErr), 1, []⟩ := by
  rw [rmdirInt.eq_def, hk]
  simp [hc, hr]

/-- One step of `rmdirInt`: a non-retryable failure throws the restacked
error immediately. -/
theorem rmdirInt_fail (prim : Nat → Except JsError Unit) (stackErr err : JsError)
    (tries k : Nat) (hk : prim k = .error err) (hc : err.code ≠ some "ENOENT")
    (hr : isRetryCode err.code = false) :
    rmdirInt prim stackErr tries k = ⟨.error (restackErr err stackErr), 1, []⟩ := by
  rw [rmdirInt.eq_def, hk]
  simp [hc, hr]

/-- Claim C1, counterexample: a wrapped operation whose primitive fails
with the non-tolerated code `EINVAL` rejects with the restacked error,
but the resulting diagnostic trace is the original message followed by
the call-site trace, with no "primitive failed: " prefix. -/
theorem restack_prefix_cex :
    genWrapperAsync envHeadless (fun _ => .error einvalE) se0 5 =
      .err (restackErr (restackErr einvalE se0) se0) 1 0 ∧
    (restackErr (restackErr einvalE se0) se0).stack.startsWith
      "primitive failed: " = false :=
  ⟨rfl, by decide⟩

/-- Claim C1 (amended): when the primitive fails with an error the layer
has not classified as tolerable (code not `EBUSY`/`EPERM`, and for the
delete wrappers not `ENOENT`, for rmdir not in `RETRY_ERRORS`), the
generic wrapper, `unlinkAsync`, `removeAsync` and `rmdirAsync` all
reject without resolving as success, the rejected error retains the
original OS error code, and its diagnostic trace begins with the original
message followed by the call-site trace captured at wrapper invocation
(there is no "primitive failed: " prefix). -/
theorem wrapper_rejects_nontolerated (env : Env) (prim : Nat → Except JsError Unit)
    (err stackErr : JsError) (fuel : Nat)
    (h0 : prim 0 = .error err)
    (hbusy : err.code ≠ some "EBUSY") (hperm : err.code ≠ some "EPERM")
    (hnoent : err.code ≠ some "ENOENT") (hunkn : err.code ≠ some "EUNKNOWN") :
    genWrapperAsync env prim stackErr fuel =
      .err (restackErr (restackErr err stackErr) stackErr) 1 0 ∧
    unlinkAsync env prim stackErr fuel =
      .err (restackErr (restackErr err stackErr) stackErr) 1 0 ∧
    removeAsync env prim stackErr fuel =
      .err (restackErr (restackErr err stackErr) stackErr) 1 0 ∧
    rmdirAsync prim stackErr = ⟨.error (restackErr err stackErr), 1, []⟩ ∧
    (restackErr (restackErr err stackErr) stackErr).code = err.code ∧
    (restackErr (restackErr err stackErr) stackErr).stack =
      err.message ++ "\n" ++ stackErr.stack := by
  have hh := errorHandler_other env err stackErr hbusy hperm
  have hretry : isRetryCode err.code = false := by
    cases hc : err.code with
    | none => rfl
    | some c =>
      rw [hc] at hbusy hperm hunkn
      simp only [ne_eq, Option.some.injEq] at hbusy hperm hunkn
      simp [isRetryCode, RETRY_ERRORS, hbusy, hperm, hunkn]
  refine ⟨?_, ?_, ?_, ?_, rfl, rfl⟩
  · exact wrapperLoop_handler_error env prim stackErr err _ fuel 0 0 h0 hh
  · exact unlinkInt_handler_error env prim stackErr err _ fuel 0 0 h0 hnoent hh
  · exact removeInt_handler_error env prim stackErr err _ fuel 0 0 h0 hnoent hh
  · exact rmdirInt_fail prim stackErr err NUM_RETRIES 0 h0 hnoent hretry

/-- Claim C1, witness. -/
theorem wrapper_rejects_nontolerated_witness :
    genWrapperAsync envHeadless (fun _ => .error einvalE) se0 5 =
      .err (restackErr (restackErr einvalE se0) se0) 1 0 ∧
    unlinkAsync envHeadless (fun _ => .error einvalE) se0 5 =
      .err (restackErr (restackErr einvalE se0) se0) 1 0 ∧
    removeAsync envHeadless (fun _ => .error einvalE) se0 5 =
      .err (restackErr (restackErr einvalE se0) se0) 1 0 ∧
    rmdirAsync (fun _ => .error einvalE) se0 =
      ⟨.error (restackErr einvalE se0), 1, []⟩ ∧
    (restackErr (restackErr einvalE se0) se0).code = einvalE.code ∧
    (restackErr (restackErr einvalE se0) se0).stack =
      einvalE.message ++ "\n" ++ se0.stack :=
  wrapper_rejects_nontolerated envHeadless (fun _ => .error einvalE) einvalE se0 5
    rfl (by decide) (by decide) (by decide) (by decide)

/-- Claim C2: `removeAsync`, `unlinkAsync` and `rmdirAsync` resolve
successfully when the primitive either succeeds or fails with `ENOENT`:
deleting something already gone is reported as success, whether or not
the path existed beforehand. -/
theorem delete_idempotent (env : Env) (prim : Nat → Except JsError Unit)
    (stackErr : JsError) (fuel : Nat)
    (h : prim 0 = .ok () ∨ ∃ e : JsError, prim 0 = .error e ∧ e.code = some "ENOENT") :
    removeAsync env prim stackErr fuel = .ok 1 0 ∧
    unlinkAsync env prim stackErr fuel = .ok 1 0 ∧
    rmdirAsync prim stackErr = ⟨.ok (), 1, []⟩ := by
  obtain hok | ⟨e, he, hc⟩ := h
  · exact ⟨removeInt_ok env prim stackErr fuel 0 0 hok,
      unlinkInt_ok env prim stackErr fuel 0 0 hok,
      rmdirInt_ok prim stackErr NUM_RETRIES 0 hok⟩
  · exact ⟨removeInt_enoent env prim stackErr e fuel 0 0 he hc,
      unlinkInt_enoent env prim stackErr e fuel 0 0 he hc,
      rmdirInt_enoent prim stackErr e NUM_RETRIES 0 he hc⟩

/-- Claim C2, witness: deleting an already-missing path succeeds for all
three delete wrappers. -/
theorem delete_idempotent_witness :
    removeAsync envHeadless (fun _ => .error enoentE) se0 2 = .ok 1 0 ∧
    unlinkAsync envHeadless (fun _ => .error enoentE) se0 2 = .ok 1 0 ∧
    rmdirAsync (fun _ => .error enoentE) se0 = ⟨.ok (), 1, []⟩ :=
  delete_idempotent envHeadless (fun _ => .error enoentE) se0 2
    (Or.inr ⟨enoentE, rfl, rfl⟩)

/-- Claim C3: when source and destination stat to the same file serial
number and the `noSelfCopy` opt-out is not set, `copyAsync` fails with the
descriptive self-copy error (restacked) and the copy primitive is never
invoked (0 invocations); when the opt-out flag is set, the identity check
is skipped entirely — the result does not depend on the stat results at
all. -/
theorem copy_selfcopy_guard :
    (∀ (env : Env) (src dest : String) (s d : Stats)
        (prim : Nat → Except JsError Unit) (options : Option CopyOptions)
        (stackErr : JsError) (fuel : Nat),
      s.ino = d.ino →
      (options = none ∨ ∃ o, options = some o ∧ o.noSelfCopy = false) →
      copyAsync env src dest (.ok s) (.ok d) prim options stackErr fuel =
        .err (restackErr (selfCopyError src dest s.ino) stackErr) 0 0) ∧
    (∀ (env : Env) (src dest : String)
        (statSrc statDest statSrc2 statDest2 : Except JsError Stats)
        (prim : Nat → Except JsError Unit) (stackErr : JsError) (fuel : Nat),
      copyAsync env src dest statSrc statDest prim (some ⟨true⟩) stackErr fuel =
        copyAsync env src dest statSrc2 statDest2 prim (some ⟨true⟩) stackErr fuel) := by
  constructor
  · intro env src dest s d prim options stackErr fuel hino hopt
    have hcheck : selfCopyCheck src dest (.ok s) (.ok d) =
        .error (selfCopyError src dest s.ino) := by
      simp [selfCopyCheck, hino]
    obtain rfl | ⟨o, rfl, ho⟩ := hopt
    · simp [copyAsync, hcheck]
    · simp [copyAsync, ho, hcheck]
  · intro env src dest statSrc statDest statSrc2 statDest2 prim stackErr fuel
    rfl

/-- Claim C3, witness: copying a file onto itself (same serial number 5)
fails with the self-copy error without invoking the copy primitive, and
with the opt-out flag the stats are irrelevant. -/
theorem copy_selfcopy_guard_witness :
    copyAsync envHeadless "a" "b" (.ok ⟨1, 5⟩) (.ok ⟨1, 5⟩)
        (fun _ => .ok ()) none se0 3 =
      .err (restackErr (selfCopyError "a" "b" 5) se0) 0 0 ∧
    copyAsync envHeadless "a" "b" (.ok ⟨1, 5⟩) (.ok ⟨1, 5⟩)
        (fun _ => .ok ()) (some ⟨true⟩) se0 3 =
      copyAsync envHeadless "a" "b" (.error enoentE) (.ok ⟨2, 6⟩)
        (fun _ => .ok ()) (some ⟨true⟩) se0 3 :=
  ⟨copy_selfcopy_guard.1 envHeadless "a" "b" ⟨1, 5⟩ ⟨1, 5⟩ (fun _ => .ok ())
      none se0 3 rfl (Or.inl rfl),
    copy_selfcopy_guard.2 envHeadless "a" "b" (.ok ⟨1, 5⟩) (.ok ⟨1, 5⟩)
      (.error enoentE) (.ok ⟨2, 6⟩) (fun _ => .ok ()) se0 3⟩

/-- Claim C4, counterexample: two stats on different devices (1 and 2)
but with the same file serial number 5 do not match as "device plus
serial number" identities, yet the guard judges them the same file and
rejects — the device is not part of the comparison. -/
theorem selfcopy_identity_cex :
    selfCopyCheck "a" "b" (.ok ⟨1, 5⟩) (.ok ⟨2, 5⟩) =
      .error (selfCopyError "a" "b" 5) ∧
    specSameIdentity ⟨1, 5⟩ ⟨2, 5⟩ = false :=
  ⟨rfl, rfl⟩

/-- Claim C4 (amended): the self-copy guard resolves both paths to the
file serial number (inode) alone — the device is not part of the
comparison — and judges them the same file exactly when the serial
numbers are equal; when the destination does not exist (`ENOENT`), the
identity check is treated as passing. -/
theorem selfcopy_identity_ino (src dest : String) (s d : Stats) (e : JsError)
    (he : e.code = some "ENOENT") :
    (s.ino = d.ino →
      selfCopyCheck src dest (.ok s) (.ok d) = .error (selfCopyError src dest s.ino)) ∧
    (s.ino ≠ d.ino →
      selfCopyCheck src dest (.ok s) (.ok d) = .ok ()) ∧
    selfCopyCheck src dest (.ok s) (.error e) = .ok () := by
  refine ⟨fun h => by simp [selfCopyCheck, h], fun h => by simp [selfCopyCheck, h], ?_⟩
  simp [selfCopyCheck, he]

/-- Claim C4, witness: serial number equal with devices different →
rejected as a self-copy; missing destination → check passes. -/
theorem selfcopy_identity_ino_witness :
    selfCopyCheck "a" "b" (.ok ⟨1, 5⟩) (.ok ⟨2, 5⟩) =
      .error (selfCopyError "a" "b" 5) ∧
    selfCopyCheck "a" "b" (.ok ⟨1, 5⟩) (.error enoentE) = .ok () :=
  ⟨(selfcopy_identity_ino "a" "b" ⟨1, 5⟩ ⟨2, 5⟩ enoentE rfl).1 rfl,
    (selfcopy_identity_ino "a" "b" ⟨1, 5⟩ ⟨2, 5⟩ enoentE rfl).2.2⟩

/-- Claim C5, counterexample: under persistent `BUSY` the rmdir wrapper
invokes the primitive 4 times (the initial attempt plus `NUM_RETRIES = 3`
retries), not 3 — and then fails with the restacked `BUSY` error. -/
theorem rmdir_busy_cex :
    rmdirAsync (fun _ => .error busyE) se0 =
      ⟨.error (restackErr busyE se0), 4, [100, 100, 100]⟩ ∧ (4 ≠ 3) :=
  ⟨rfl, by decide⟩

/-- Claim C5 (amended): when every rmdir attempt fails with `BUSY`, the
wrapper fails permanently after the initial attempt plus exactly
`NUM_RETRIES = 3` automatic retries (4 primitive invocations in all),
with a `RETRY_DELAY_MS = 100`ms delay before each retry, and the final
rejection is the original `BUSY` error (code preserved) restacked with
the call-site trace captured at the initial `rmdirAsync` call. -/
theorem rmdir_busy_bounded (e stackErr : JsError) (hc : e.code = some "EBUSY") :
    rmdirAsync (fun _ => .error e) stackErr =
      ⟨.error (restackErr e stackErr), NUM_RETRIES + 1,
        List.replicate NUM_RETRIES RETRY_DELAY_MS⟩ ∧
    (restackErr e stackErr).code = some "EBUSY" := by
  have hne : e.code ≠ some "ENOENT" := by rw [hc]; decide
  have hr : isRetryCode e.code = true := by rw [hc]; rfl
  have hstep := fun t k => rmdirInt_retry (fun _ => .error e) stackErr e t k rfl hne hr
  have hlast := fun k => rmdirInt_exhausted (fun _ => .error e) stackErr e k rfl hne hr
  constructor
  · show rmdirInt (fun _ => .error e) stackErr 3 0 = _
    rw [hstep 2 0, hstep 1 1, hstep 0 2, hlast 3]
    rfl
  · simp [restackErr, hc]

/-- Claim C5, witness. -/
theorem rmdir_busy_bounded_witness :
    rmdirAsync (fun _ => .error busyE) se0 =
      ⟨.error (restackErr busyE se0), NUM_RETRIES + 1,
        List.replicate NUM_RETRIES RETRY_DELAY_MS⟩ ∧
    (restackErr busyE se0).code = some "EBUSY" :=
  rmdir_busy_bounded busyE se0 rfl

/-- Handler outcome: `EPERM` with no dialog available — the access-denied
prompt resolves `false` ("don't unlock"), which the classifier maps to
"repeat without elevation". -/
theorem errorHandler_eperm_headless (env : Env) (e stackErr : JsError)
    (hd : env.hasDialog = false) (hc : e.code = some "EPERM") :
    errorHandler env e stackErr = .ok 0 := by
  unfold errorHandler errorRepeat unlockConfirm
  rw [hc]
  simp [hd]

/-- Handler outcome: `EBUSY` with no dialog available — the busy prompt
resolves `false`, so the handler rejects with the restacked error. -/
theorem errorHandler_ebusy_headless (env : Env) (e stackErr : JsError)
    (hd : env.hasDialog = false) (hc : e.code = some "EBUSY") :
    errorHandler env e stackErr =
      .error (restackErr (restackErr e stackErr) stackErr) := by
  unfold errorHandler errorRepeat busyRetry
  rw [hc]
  simp [hd]

/-- Handler outcome: `EPERM`, dialog present, user grants permission and
the elevation succeeds — repeat after one elevation session. -/
theorem errorHandler_eperm_grant (env : Env) (e stackErr : JsError)
    (hd : env.hasDialog = true) (hp : env.permChoice = 2)
    (helev : env.elevResult = .ok ()) (hc : e.code = some "EPERM") :
    errorHandler env e stackErr = .ok 1 := by
  unfold errorHandler errorRepeat unlockConfirm
  rw [hc]
  simp [hd, hp, helev]

/-- Handler outcome: `EBUSY`, dialog present, user cancels — reject with
the restacked `UserCanceled`. -/
theorem errorHandler_busy_cancel (env : Env) (e stackErr : JsError)
    (hd : env.hasDialog = true) (hb : env.busyChoice = 0)
    (hc : e.code = some "EBUSY") :
    errorHandler env e stackErr = .error (restackErr UserCanceled stackErr) := by
  unfold errorHandler errorRepeat busyRetry
  rw [hc]
  simp [hd, hb]

/-- Handler outcome: `EPERM`, dialog present, user cancels — reject with
the restacked `UserCanceled`. -/
theorem errorHandler_perm_cancel (env : Env) (e stackErr : JsError)
    (hd : env.hasDialog = true) (hp : env.permChoice = 0)
    (hc : e.code = some "EPERM") :
    errorHandler env e stackErr = .error (restackErr UserCanceled stackErr) := by
  unfold errorHandler errorRepeat unlockConfirm
  rw [hc]
  simp [hd, hp]

/-- Claim C6, counterexample: `mkdirAsync` does not tolerate
`ALREADY_EXISTS` — an `EEXIST` failure of the mkdir primitive is
propagated (restacked, code preserved), while `ensureDirAsync` treats the
same failure as success. -/
theorem mkdir_eexist_cex :
    mkdirAsync envHeadless (fun _ => .error eexistE) se0 5 =
      .err (restackErr (restackErr eexistE se0) se0) 1 0 ∧
    (restackErr (restackErr eexistE se0) se0).code = some "EEXIST" ∧
    ensureDirAsync (.error eexistE) se0 = .ok () :=
  ⟨rfl, rfl, rfl⟩

/-- Claim C6 (amended): only `ensureDirAsync` treats an `EEXIST` failure
of the underlying primitive as success; `mkdirAsync` rejects it with the
restacked error (code preserved), so of the two only `ensureDirAsync`
succeeds when called twice in a row without an intervening delete. -/
theorem ensuredir_mkdir_eexist (env : Env) (e stackErr : JsError) (fuel : Nat)
    (hc : e.code = some "EEXIST") :
    ensureDirAsync (.error e) stackErr = .ok () ∧
    mkdirAsync env (fun _ => .error e) stackErr fuel =
      .err (restackErr (restackErr e stackErr) stackErr) 1 0 ∧
    (restackErr (restackErr e stackErr) stackErr).code = some "EEXIST" := by
  have hbusy : e.code ≠ some "EBUSY" := by rw [hc]; decide
  have hperm : e.code ≠ some "EPERM" := by rw [hc]; decide
  refine ⟨by simp [ensureDirAsync, hc], ?_, by simp [restackErr, hc]⟩
  exact wrapperLoop_handler_error env _ stackErr e _ fuel 0 0 rfl
    (errorHandler_other env e stackErr hbusy hperm)

/-- Claim C6, witness. -/
theorem ensuredir_mkdir_eexist_witness :
    ensureDirAsync (.error eexistE) se0 = .ok () ∧
    mkdirAsync envHeadless (fun _ => .error eexistE) se0 2 =
      .err (restackErr (restackErr eexistE se0) se0) 1 0 ∧
    (restackErr (restackErr eexistE se0) se0).code = some "EEXIST" :=
  ensuredir_mkdir_eexist envHeadless eexistE se0 2 rfl

/-- Claim C7, counterexample: with no dialog facility, a primitive that is
`BUSY` once and would succeed on retry is not retried — the wrapper
rejects after one invocation with the restacked `BUSY` error — whereas
the same primitive under a user who approves retry succeeds; headless
operation does not behave as if the user had approved. -/
theorem headless_busy_cex :
    genWrapperAsync envHeadless busyOncePrim se0 5 =
      .err (restackErr (restackErr busyE se0) se0) 1 0 ∧
    genWrapperAsync ⟨true, 1, 1, .ok ()⟩ busyOncePrim se0 5 = .ok 2 0 :=
  ⟨rfl, rfl⟩

/-- Claim C7 (amended): when no dialog facility is available, the
access-denied prompt auto-resolves to "retry without elevation" — a
transient `EPERM` failure is retried and the operation succeeds — but the
busy prompt resolves to "don't retry", so a `BUSY` failure makes the
wrapped operation fail immediately with the restacked original error
after a single invocation. -/
theorem headless_prompt_behavior (env : Env) (hd : env.hasDialog = false) :
    (∀ (e : JsError) (prim : Nat → Except JsError Unit) (stackErr : JsError) (fuel : Nat),
      e.code = some "EPERM" → prim 0 = .error e → prim 1 = .ok () →
      genWrapperAsync env prim stackErr (fuel + 1) = .ok 2 0) ∧
    (∀ (e : JsError) (prim : Nat → Except JsError Unit) (stackErr : JsError) (fuel : Nat),
      e.code = some "EBUSY" → prim 0 = .error e →
      genWrapperAsync env prim stackErr fuel =
        .err (restackErr (restackErr e stackErr) stackErr) 1 0) := by
  constructor
  · intro e prim stackErr fuel hc h0 h1
    have hh := errorHandler_eperm_headless env e stackErr hd hc
    have h2 := wrapperLoop_handler_ok env prim stackErr e fuel 0 0 0 h0 hh
    exact h2.trans (wrapperLoop_ok env prim stackErr fuel 1 0 h1)
  · intro e prim stackErr fuel hc h0
    exact wrapperLoop_handler_error env prim stackErr e _ fuel 0 0 h0
      (errorHandler_ebusy_headless env e stackErr hd hc)

/-- Claim C7, witness. -/
theorem headless_prompt_behavior_witness :
    genWrapperAsync envHeadless epermOncePrim se0 5 = .ok 2 0 ∧
    genWrapperAsync envHeadless (fun _ => .error busyE) se0 7 =
      .err (restackErr (restackErr busyE se0) se0) 1 0 :=
  ⟨(headless_prompt_behavior envHeadless rfl).1 epermE epermOncePrim se0 4
      rfl rfl rfl,
    (headless_prompt_behavior envHeadless rfl).2 busyE (fun _ => .error busyE)
      se0 7 rfl rfl⟩

/-- Claim C8: a primitive that fails once with `PERMISSION_DENIED`, a
dialog where the user chooses "Give permission", and an elevation that
succeeds: the wrapped operation succeeds after exactly one elevation
session and exactly one re-invocation of the primitive (2 invocations in
all). -/
theorem eperm_grant_one_elevation (env : Env) (e : JsError)
    (prim : Nat → Except JsError Unit) (stackErr : JsError) (fuel : Nat)
    (hd : env.hasDialog = true) (hp : env.permChoice = 2)
    (helev : env.elevResult = .ok ())
    (hc : e.code = some "EPERM") (h0 : prim 0 = .error e) (h1 : prim 1 = .ok ()) :
    genWrapperAsync env prim stackErr (fuel + 1) = .ok 2 1 := by
  have hh := errorHandler_eperm_grant env e stackErr hd hp helev hc
  have h2 := wrapperLoop_handler_ok env prim stackErr e fuel 0 0 1 h0 hh
  exact h2.trans (wrapperLoop_ok env prim stackErr fuel 1 1 h1)

/-- Claim C8, witness. -/
theorem eperm_grant_one_elevation_witness :
    genWrapperAsync ⟨true, 1, 2, .ok ()⟩ epermOncePrim se0 5 = .ok 2 1 :=
  eperm_grant_one_elevation ⟨true, 1, 2, .ok ()⟩ epermE epermOncePrim se0 4
    rfl rfl rfl rfl rfl rfl

/-- Claim C9: when the user chooses "Cancel" on the busy prompt or on the
access-denied prompt, the wrapped operation fails with the distinguished
`UserCanceled` error (restacked with the call-site trace, its
distinguishing flag intact) after a single invocation — the primitive is
not re-invoked. -/
theorem cancel_rejects_usercanceled (env : Env) (stackErr : JsError)
    (hd : env.hasDialog = true) :
    (∀ (e : JsError) (prim : Nat → Except JsError Unit) (fuel : Nat),
      env.busyChoice = 0 → e.code = some "EBUSY" → prim 0 = .error e →
      genWrapperAsync env prim stackErr fuel =
        .err (restackErr UserCanceled stackErr) 1 0) ∧
    (∀ (e : JsError) (prim : Nat → Except JsError Unit) (fuel : Nat),
      env.permChoice = 0 → e.code = some "EPERM" → prim 0 = .error e →
      genWrapperAsync env prim stackErr fuel =
        .err (restackErr UserCanceled stackErr) 1 0) ∧
    (restackErr UserCanceled stackErr).userCanceled = true := by
  refine ⟨?_, ?_, rfl⟩
  · intro e prim fuel hb hc h0
    exact wrapperLoop_handler_error env prim stackErr e _ fuel 0 0 h0
      (errorHandler_busy_cancel env e stackErr hd hb hc)
  · intro e prim fuel hp hc h0
    exact wrapperLoop_handler_error env prim stackErr e _ fuel 0 0 h0
      (errorHandler_perm_cancel env e stackErr hd hp hc)

/-- Claim C9, witness: cancel on the busy prompt and cancel on the
access-denied prompt each reject with the flagged `UserCanceled` after
one invocation. -/
theorem cancel_rejects_usercanceled_witness :
    genWrapperAsync ⟨true, 0, 0, .ok ()⟩ (fun _ => .error busyE) se0 5 =
      .err (restackErr UserCanceled se0) 1 0 ∧
    genWrapperAsync ⟨true, 0, 0, .ok ()⟩ (fun _ => .error epermE) se0 5 =
      .err (restackErr UserCanceled se0) 1 0 ∧
    (restackErr UserCanceled se0).userCanceled = true :=
  ⟨(cancel_rejects_usercanceled ⟨true, 0, 0, .ok ()⟩ se0 rfl).1 busyE
      (fun _ => .error busyE) 5 rfl rfl rfl,
    (cancel_rejects_usercanceled ⟨true, 0, 0, .ok ()⟩ se0 rfl).2.1 epermE
      (fun _ => .error epermE) 5 rfl rfl rfl,
    (cancel_rejects_usercanceled ⟨true, 0, 0, .ok ()⟩ se0 rfl).2.2⟩

/-- Claim C10: when stat of the source fails and `noSelfCopy` is not set,
`copyAsync` rejects with that stat error (restacked, code preserved) and
the copy primitive is never invoked: the failure originates in the
self-copy guard. -/
theorem copy_src_stat_error (env : Env) (src dest : String) (e : JsError)
    (statDest : Except JsError Stats) (prim : Nat → Except JsError Unit)
    (options : Option CopyOptions) (stackErr : JsError) (fuel : Nat)
    (hopt : options = none ∨ ∃ o, options = some o ∧ o.noSelfCopy = false) :
    copyAsync env src dest (.error e) statDest prim options stackErr fuel =
      .err (restackErr e stackErr) 0 0 ∧
    (restackErr e stackErr).code = e.code := by
  have hcheck : selfCopyCheck src dest (.error e) statDest = .error e := by
    cases statDest <;> rfl
  obtain rfl | ⟨o, rfl, ho⟩ := hopt
  · exact ⟨by simp [copyAsync, hcheck], rfl⟩
  · exact ⟨by simp [copyAsync, ho, hcheck], rfl⟩

/-- Claim C10, witness: a source whose stat fails with `ENOENT` makes the
copy reject with that error without invoking the copy primitive. -/
theorem copy_src_stat_error_witness :
    copyAsync envHeadless "a" "b" (.error enoentE) (.ok ⟨1, 5⟩)
        (fun _ => .ok ()) none se0 3 =
      .err (restackErr enoentE se0) 0 0 ∧
    (restackErr enoentE se0).code = enoentE.code :=
  copy_src_stat_error envHeadless "a" "b" enoentE (.ok ⟨1, 5⟩) (fun _ => .ok ())
    none se0 3 (Or.inl rfl)

end Vortex
